import Mathlib

/-!
Verification of the directory-locking subsystem of LibrePCB
(`src/libs/librepcbcommon/fileio/directorylock.cpp`,
`src/libs/librepcbcommon/systeminfo.cpp`) against its specification.

The C++ code is shallowly embedded: `QString` values are modelled as
`List Char`, the filesystem state visible to one `DirectoryLock` object
is a record holding whether the target directory exists and the optional
content of the `<dir>/.lock` sentinel file, and every throwing operation
returns `Except LockError`.
-/

namespace librepcb

/-- A `QString` is modelled as its sequence of characters. -/
abbrev QString := List Char

/-- Model of `QString::remove("\n")`: delete every newline character. -/
def removeNl (s : QString) : QString := s.filter (fun c => c != '\n')

/-- The string contains no newline character. -/
def noNl (s : QString) : Prop := '\n' ∉ s

instance noNl.decidable (s : QString) : Decidable (noNl s) :=
  inferInstanceAs (Decidable ('\n' ∉ s))

/-- Model of `QString::split("\n", QString::KeepEmptyParts)` (and of
`QByteArray::split('\n')`): split at every newline, keeping empty parts,
so the result is never empty and has one more element than the number of
newlines. -/
def splitNl : QString → List QString
  | [] => [[]]
  | c :: rest =>
    if c = '\n' then [] :: splitNl rest
    else
      match splitNl rest with
      | [] => [[c]]
      | l :: ls => (c :: l) :: ls

/-- Model of `QStringList::join('\n')`. -/
def joinNl : List QString → QString
  | [] => []
  | [s] => s
  | s :: rest => s ++ '\n' :: joinNl rest

/-- A character in the range `'0'`–`'9'`. -/
def isDigitChar (c : Char) : Bool := 48 ≤ c.toNat && c.toNat ≤ 57

/-- Numeric value of a digit character. -/
def digitVal (c : Char) : Nat := c.toNat - 48

/-- Interpret a list of digit characters as a decimal number. -/
def charsToNat (cs : QString) : Nat := cs.foldl (fun n c => 10 * n + digitVal c) 0

/-- The digit character for a value below ten. -/
def digitChar (d : Nat) : Char := Char.ofNat (48 + d)

/-- Decimal digit characters, most significant first; structural recursion
on a fuel argument so that the definition reduces in the kernel. -/
def natToCharsAux : Nat → Nat → QString
  | 0, _ => []
  | fuel + 1, n =>
    if n < 10 then [digitChar n]
    else natToCharsAux fuel (n / 10) ++ [digitChar (n % 10)]

/-- Decimal digit characters of a natural number, most significant first.
Fuel `n + 1` always suffices since the value shrinks strictly at each
division by ten. -/
def natToChars (n : Nat) : QString := natToCharsAux (n + 1) n

/-- Model of `QString::number` on a `qint64`. -/
def qstringNumber (i : Int) : QString :=
  if i < 0 then '-' :: natToChars i.natAbs else natToChars i.natAbs

/-- The string is nonempty and all its characters are decimal digits. -/
def allDigits (cs : QString) : Bool := !cs.isEmpty && cs.all isDigitChar

/-- Model of `QString::toLongLong()` called without an `ok` out-parameter,
as in `directorylock.cpp:102`: parse an optional sign followed by decimal
digits; on any parse failure return `0` silently.  (Qt additionally
tolerates surrounding whitespace; no input considered in this development
carries whitespace, so that case is not modelled.) -/
def toLongLong (cs : QString) : Int :=
  match cs with
  | [] => 0
  | c :: rest =>
    if c = '-' then (if allDigits rest then -(charsToNat rest : Int) else 0)
    else if c = '+' then (if allDigits rest then (charsToNat rest : Int) else 0)
    else if allDigits (c :: rest) then (charsToNat (c :: rest) : Int) else 0

/-- The lock status enum `DirectoryLock::LockStatus`. -/
inductive LockStatus
  | Unlocked
  | Locked
  | StaleLock
deriving DecidableEq, Repr

/-- The distinct exception sites of the subsystem.  `dirNotExisting` is the
"The directory ... does not exist" error thrown by `getStatus()` and
`lock()`; `tooFewLines` is the "The lock file ... has too few lines" error
of `getStatus()`; `removeFileFailed` is a throw out of
`FileUtils::removeFile` in `unlock()`; `livenessQueryFailed` is the
"Could not determine if another process is running." error of
`SystemInfo::isProcessRunning`. -/
inductive LockError
  | dirNotExisting
  | tooFewLines
  | removeFileFailed
  | livenessQueryFailed (code : Int)
deriving DecidableEq, Repr

/-- The ambient identity of the current application instance: the values
returned by `SystemInfo::getFullUsername()`, `SystemInfo::getUsername()`,
`SystemInfo::getHostname()` and `QCoreApplication::applicationPid()`. -/
structure Identity where
  fullUsername : QString
  username : QString
  hostname : QString
  pid : Int
deriving DecidableEq, Repr

/-- The filesystem state visible to one `DirectoryLock`: whether
`mDirToLock.isExistingDir()` holds, and the content of the sentinel file
`mLockFilePath = mDirToLock/.lock` when it exists (`none` when
`mLockFilePath.isExistingFile()` is false).  A default-constructed handle
with an invalid `FilePath` is covered by `dirIsExistingDir = false`.
When the directory does not exist the sentinel cannot exist either. -/
structure FS where
  dirIsExistingDir : Bool
  lockFileContent : Option QString
deriving DecidableEq, Repr

/-- The in-memory state of a `DirectoryLock` object: its
`mLockedByThisObject` flag. -/
structure DirectoryLock where
  mLockedByThisObject : Bool
deriving DecidableEq, Repr

/-- Shallow embedding of `DirectoryLock::getStatus()`
(`directorylock.cpp:75-117`).  `QString::fromUtf8 ∘ FileUtils::readFile`
is modelled as yielding the stored content; `lines.at(i)` is written
`lines.getD i []`, total because it is only reached under the
`lines.count() >= 5` guard.  The parameters `alive` and `procStart` model
the ambient OS process table (`SystemInfo::isProcessRunning` and a
process start-time query).  The C++ function never invokes either — the
liveness check is missing, see the `@todo` at `directorylock.cpp:115` —
so both are, faithfully, unused in the body; they are parameters only so
that independence of the result from the process table is statable. -/
def DirectoryLock.getStatus (fs : FS) (this : Identity)
    (alive : Int → Bool) (procStart : Int → Option QString) :
    Except LockError LockStatus :=
  if fs.dirIsExistingDir = false then .error .dirNotExisting
  else
    match fs.lockFileContent with
    | none => .ok .Unlocked
    | some content =>
      let lines := splitNl content
      if lines.length < 5 then .error .tooFewLines
      else
        let lockUser := lines.getD 1 []
        let lockHost := lines.getD 2 []
        let lockPid := toLongLong (lines.getD 3 [])
        let thisUser := removeNl this.username
        let thisHost := removeNl this.hostname
        let thisPid := this.pid
        if lockUser ≠ thisUser ∨ lockHost ≠ thisHost ∨ lockPid = thisPid then
          .ok .Locked
        else
          .ok .StaleLock

/-- The sentinel content prepared by `DirectoryLock::lock()`
(`directorylock.cpp:134-141`): five lines — full user name, user name,
host name, pid, current UTC time — joined with `'\n'`.  `now` models
`QDateTime::currentDateTimeUtc().toString(Qt::ISODate)`. -/
def DirectoryLock.lockContent (this : Identity) (now : QString) : QString :=
  joinNl [removeNl this.fullUsername, removeNl this.username,
          removeNl this.hostname, qstringNumber this.pid, now]

/-- Shallow embedding of `DirectoryLock::lock()`
(`directorylock.cpp:123-148`): check that the directory exists,
write (create or overwrite) the sentinel, set `mLockedByThisObject`.
`FileUtils::writeFile` into an existing directory is modelled as
succeeding; unrelated I/O failures are outside the model. -/
def DirectoryLock.lock (fs : FS) (st : DirectoryLock)
    (this : Identity) (now : QString) :
    Except LockError (FS × DirectoryLock) :=
  if fs.dirIsExistingDir = false then .error .dirNotExisting
  else
    .ok ({ fs with lockFileContent := some (DirectoryLock.lockContent this now) },
         { st with mLockedByThisObject := true })

/-- Model of `FileUtils::removeFile` (fileutils.cpp is not among the
reviewed sources; modelled from its callers and the repository's tests):
it wraps `QFile::remove`, which fails when the file does not exist, and
throws on failure.  That removing an absent sentinel throws is pinned by
the tests `DirectoryLockTest.testDefaultConstructor` and
`DirectoryLockTest.testConstructorWithNonExistingDir`, which both require
`unlock()` to throw when no lock file can exist
(`directorylocktest.cpp:76` and `:98`). -/
def FileUtils.removeFile (fs : FS) : Except LockError FS :=
  match fs.lockFileContent with
  | none => .error .removeFileFailed
  | some _ => .ok { fs with lockFileContent := none }

/-- Shallow embedding of `DirectoryLock::unlock()`
(`directorylock.cpp:150-157`): remove the lock file — with no
directory-existence check — and only then clear `mLockedByThisObject`.
When removal throws, the flag is left unchanged. -/
def DirectoryLock.unlock (fs : FS) (st : DirectoryLock) :
    Except LockError (FS × DirectoryLock) :=
  match FileUtils.removeFile fs with
  | .error e => .error e
  | .ok fs2 => .ok (fs2, { st with mLockedByThisObject := false })

/-- Shallow embedding of `DirectoryLock::~DirectoryLock()`
(`directorylock.cpp:49-58`): when `mLockedByThisObject` is set, call
`unlock()` and swallow (log) any exception; otherwise do nothing.
Returns the resulting filesystem state. -/
def DirectoryLock.destructor (fs : FS) (st : DirectoryLock) : FS :=
  if st.mLockedByThisObject then
    match DirectoryLock.unlock fs st with
    | .ok (fs2, _) => fs2
    | .error _ => fs
  else fs

/-- Outcome of the POSIX call `kill(pid, 0)` as observed by the Unix
branch of `SystemInfo::isProcessRunning` (`systeminfo.cpp:118-129`):
return value 0, or -1 with `errno == ESRCH`, or -1 with any other
`errno` value. -/
inductive KillResult
  | success
  | noSuchProcess
  | failure (errno : Int)
deriving DecidableEq, Repr

/-- Shallow embedding of the Unix branch of `SystemInfo::isProcessRunning`
(`systeminfo.cpp:118-129`): `kill(pid, 0) == 0` means running; `-1` with
`ESRCH` means not running; any other failure throws. -/
def SystemInfo.isProcessRunningUnix (r : KillResult) : Except LockError Bool :=
  match r with
  | .success => .ok true
  | .noSuchProcess => .ok false
  | .failure e => .error (.livenessQueryFailed e)

/-- Outcome of `OpenProcess` plus `GetExitCodeProcess` as observed by the
Windows branch of `SystemInfo::isProcessRunning`
(`systeminfo.cpp:130-150`). -/
inductive OpenProcessResult
  | handleOk (exitCode : Int)
  | handleFail (lastError : Int)
  | noHandle (lastError : Int)
deriving DecidableEq, Repr

/-- The Windows constant `STILL_ACTIVE`. -/
def STILL_ACTIVE : Int := 259

/-- The Windows constant `ERROR_INVALID_PARAMETER`. -/
def ERROR_INVALID_PARAMETER : Int := 87

/-- Shallow embedding of the Windows branch of
`SystemInfo::isProcessRunning` (`systeminfo.cpp:130-150`). -/
def SystemInfo.isProcessRunningWin (r : OpenProcessResult) :
    Except LockError Bool :=
  match r with
  | .handleOk code => if code = STILL_ACTIVE then .ok true else .ok false
  | .handleFail e => .error (.livenessQueryFailed e)
  | .noHandle e =>
    if e = ERROR_INVALID_PARAMETER then .ok false
    else .error (.livenessQueryFailed e)

deriving instance DecidableEq for Except

/-- A concrete identity used as the current application instance in
concrete runs: full user name "Alice A.", login "alice", host "home",
pid 7. -/
def idAlice : Identity := ⟨"Alice A.".data, "alice".data, "home".data, 7⟩

/-- A process table in which every pid is reported as running. -/
def oracleAliveAll (x : Int) : Bool := true

/-- A start-time query that reports no process as running. -/
def oracleStartNone (x : Int) : Option QString := none

/-- A process table in which exactly pid 42 is running. -/
def oracleAlive42 (x : Int) : Bool := x = 42

/-- A start-time query reporting pid 42 as started at
2017-01-01T00:00:00Z. -/
def oracleStart42 (x : Int) : Option QString :=
  if x = 42 then some "2017-01-01T00:00:00Z".data else none

theorem splitNl_ne_nil (s : QString) : splitNl s ≠ [] := by
  induction s with
  | nil => simp [splitNl]
  | cons c rest ih =>
    by_cases hc : c = '\n'
    · simp [splitNl, hc]
    · simp only [splitNl, if_neg hc]
      cases h : splitNl rest with
      | nil => simp
      | cons l ls => simp

theorem splitNl_of_noNl (s : QString) (h : noNl s) : splitNl s = [s] := by
  induction s with
  | nil => simp [splitNl]
  | cons c rest ih =>
    have hc : c ≠ '\n' := by
      intro he; exact h (by simp [he])
    have hrest : noNl rest := by
      intro hm; exact h (by simp [hm])
    simp only [splitNl, if_neg hc, ih hrest]

theorem splitNl_append_nl (s : QString) (h : noNl s) (rest : QString) :
    splitNl (s ++ '\n' :: rest) = s :: splitNl rest := by
  induction s with
  | nil => simp [splitNl]
  | cons c tail ih =>
    have hc : c ≠ '\n' := by
      intro he; exact h (by simp [he])
    have htail : noNl tail := by
      intro hm; exact h (by simp [hm])
    simp only [List.cons_append, splitNl, if_neg hc, List.append_eq, ih htail]

theorem splitNl_joinNl (parts : List QString) (hne : parts ≠ [])
    (h : ∀ p ∈ parts, noNl p) : splitNl (joinNl parts) = parts := by
  induction parts with
  | nil => exact absurd rfl hne
  | cons s rest ih =>
    cases rest with
    | nil =>
      have := splitNl_of_noNl s (h s (by simp))
      simpa [joinNl] using this
    | cons t ts =>
      have hs : noNl s := h s (by simp)
      have hrest : ∀ p ∈ t :: ts, noNl p := by
        intro p hp; exact h p (by simp [hp])
      calc splitNl (joinNl (s :: t :: ts))
          = splitNl (s ++ '\n' :: joinNl (t :: ts)) := by rfl
        _ = s :: splitNl (joinNl (t :: ts)) := splitNl_append_nl s hs _
        _ = s :: t :: ts := by rw [ih (by simp) hrest]

theorem noNl_removeNl (s : QString) : noNl (removeNl s) := by
  intro hm
  simp only [removeNl, List.mem_filter] at hm
  exact absurd hm.2 (by simp)

theorem charsToNat_append_digit (cs : QString) (c : Char) :
    charsToNat (cs ++ [c]) = 10 * charsToNat cs + digitVal c := by
  simp [charsToNat, List.foldl_append]

theorem digitVal_digitChar (d : Nat) (h : d < 10) : digitVal (digitChar d) = d := by
  interval_cases d <;> decide

theorem isDigitChar_digitChar (d : Nat) (h : d < 10) :
    isDigitChar (digitChar d) = true := by
  interval_cases d <;> decide

theorem charsToNat_natToCharsAux (fuel : Nat) :
    ∀ n, n < fuel → charsToNat (natToCharsAux fuel n) = n := by
  induction fuel with
  | zero => intro n h; omega
  | succ f ih =>
    intro n h
    by_cases h10 : n < 10
    · rw [natToCharsAux, if_pos h10]
      simp [charsToNat, digitVal_digitChar n h10]
    · rw [natToCharsAux, if_neg h10]
      rw [charsToNat_append_digit]
      have hlt : n / 10 < f := by
        have : n / 10 < n := Nat.div_lt_self (by omega) (by norm_num)
        omega
      rw [ih (n / 10) hlt, digitVal_digitChar (n % 10) (Nat.mod_lt n (by norm_num))]
      omega

theorem charsToNat_natToChars (n : Nat) : charsToNat (natToChars n) = n :=
  charsToNat_natToCharsAux (n + 1) n (Nat.lt_succ_self n)

theorem natToCharsAux_all_digits (fuel : Nat) :
    ∀ n, n < fuel →
      natToCharsAux fuel n ≠ [] ∧ (natToCharsAux fuel n).all isDigitChar = true := by
  induction fuel with
  | zero => intro n h; omega
  | succ f ih =>
    intro n h
    by_cases h10 : n < 10
    · rw [natToCharsAux, if_pos h10]
      exact ⟨by simp, by simp [isDigitChar_digitChar n h10]⟩
    · rw [natToCharsAux, if_neg h10]
      have hlt : n / 10 < f := by
        have : n / 10 < n := Nat.div_lt_self (by omega) (by norm_num)
        omega
      obtain ⟨-, hall⟩ := ih (n / 10) hlt
      refine ⟨by simp, ?_⟩
      simp [List.all_append, hall,
        isDigitChar_digitChar (n % 10) (Nat.mod_lt n (by norm_num))]

theorem natToChars_all_digits (n : Nat) :
    natToChars n ≠ [] ∧ (natToChars n).all isDigitChar = true :=
  natToCharsAux_all_digits (n + 1) n (Nat.lt_succ_self n)

theorem allDigits_natToChars (n : Nat) : allDigits (natToChars n) = true := by
  obtain ⟨hne, hall⟩ := natToChars_all_digits n
  cases hcs : natToChars n with
  | nil => exact absurd hcs hne
  | cons c rest =>
    rw [hcs] at hall
    simp [allDigits, hall]

theorem toLongLong_natToChars (n : Nat) : toLongLong (natToChars n) = n := by
  obtain ⟨hne, hall⟩ := natToChars_all_digits n
  cases hcs : natToChars n with
  | nil => exact absurd hcs hne
  | cons c rest =>
    have hcd : isDigitChar c = true := by
      rw [hcs] at hall
      simp only [List.all_cons, Bool.and_eq_true] at hall
      exact hall.1
    have hcm : c ≠ '-' := by
      intro he; rw [he] at hcd; exact absurd hcd (by decide)
    have hcp : c ≠ '+' := by
      intro he; rw [he] at hcd; exact absurd hcd (by decide)
    have hAD : allDigits (c :: rest) = true := hcs ▸ allDigits_natToChars n
    show (if c = '-' then (if allDigits rest then -(charsToNat rest : Int) else 0)
      else if c = '+' then (if allDigits rest then (charsToNat rest : Int) else 0)
      else if allDigits (c :: rest) then (charsToNat (c :: rest) : Int) else 0) = (n : Int)
    rw [if_neg hcm, if_neg hcp, if_pos hAD, ← hcs, charsToNat_natToChars]

theorem toLongLong_qstringNumber (i : Int) : toLongLong (qstringNumber i) = i := by
  by_cases h : i < 0
  · rw [qstringNumber, if_pos h]
    have hAD : allDigits (natToChars i.natAbs) = true := allDigits_natToChars _
    show (if ('-' : Char) = '-' then
        (if allDigits (natToChars i.natAbs) then -(charsToNat (natToChars i.natAbs) : Int)
         else 0)
      else if ('-' : Char) = '+' then
        (if allDigits (natToChars i.natAbs) then (charsToNat (natToChars i.natAbs) : Int)
         else 0)
      else if allDigits ('-' :: natToChars i.natAbs) then
        (charsToNat ('-' :: natToChars i.natAbs) : Int)
      else 0) = i
    rw [if_pos rfl, if_pos hAD, charsToNat_natToChars]
    omega
  · rw [qstringNumber, if_neg h]
    rw [toLongLong_natToChars]
    omega

theorem noNl_of_all_digits (cs : QString) (h : cs.all isDigitChar = true) :
    noNl cs := by
  intro hm
  have := List.all_eq_true.mp h '\n' hm
  exact absurd this (by decide)

theorem noNl_qstringNumber (i : Int) : noNl (qstringNumber i) := by
  rw [qstringNumber]
  by_cases h : i < 0
  · rw [if_pos h]
    intro hm
    rcases List.mem_cons.mp hm with he | hm2
    · exact absurd he (by decide)
    · exact noNl_of_all_digits _ (natToChars_all_digits i.natAbs).2 hm2
  · rw [if_neg h]
    exact noNl_of_all_digits _ (natToChars_all_digits i.natAbs).2

theorem splitNl_lockContent (ident : Identity) (now : QString) (hnow : noNl now) :
    splitNl (DirectoryLock.lockContent ident now) =
      [removeNl ident.fullUsername, removeNl ident.username,
       removeNl ident.hostname, qstringNumber ident.pid, now] := by
  rw [DirectoryLock.lockContent]
  apply splitNl_joinNl _ (by simp)
  intro p hp
  simp only [List.mem_cons, List.not_mem_nil, or_false] at hp
  rcases hp with rfl | rfl | rfl | rfl | rfl
  · exact noNl_removeNl _
  · exact noNl_removeNl _
  · exact noNl_removeNl _
  · exact noNl_qstringNumber _
  · exact hnow

theorem getStatus_some (content : QString) (ident : Identity)
    (alive : Int → Bool) (procStart : Int → Option QString) :
    DirectoryLock.getStatus ⟨true, some content⟩ ident alive procStart =
      (if (splitNl content).length < 5 then .error .tooFewLines
       else if (splitNl content).getD 1 [] ≠ removeNl ident.username ∨
               (splitNl content).getD 2 [] ≠ removeNl ident.hostname ∨
               toLongLong ((splitNl content).getD 3 []) = ident.pid then
         .ok .Locked
       else .ok .StaleLock) := rfl

theorem lock_eq_ok (fs0 : FS) (st0 : DirectoryLock) (ident : Identity)
    (now : QString) (fs1 : FS) (st1 : DirectoryLock)
    (h : DirectoryLock.lock fs0 st0 ident now = .ok (fs1, st1)) :
    fs0.dirIsExistingDir = true ∧
    fs1 = { fs0 with lockFileContent := some (DirectoryLock.lockContent ident now) } ∧
    st1 = { st0 with mLockedByThisObject := true } := by
  by_cases hd : fs0.dirIsExistingDir = false
  · rw [DirectoryLock.lock, if_pos hd] at h
    exact Except.noConfusion h
  · rw [DirectoryLock.lock, if_neg hd] at h
    rw [Except.ok.injEq, Prod.mk.injEq] at h
    rw [Bool.not_eq_false] at hd
    exact ⟨hd, h.1.symm, h.2.symm⟩

theorem unlock_eq_ok (fs fs2 : FS) (st st2 : DirectoryLock)
    (h : DirectoryLock.unlock fs st = .ok (fs2, st2)) :
    st2 = ⟨false⟩ ∧ fs2 = { fs with lockFileContent := none } := by
  rcases hc : fs.lockFileContent with _ | c
  · simp only [DirectoryLock.unlock, FileUtils.removeFile, hc] at h
    exact Except.noConfusion h
  · simp only [DirectoryLock.unlock, FileUtils.removeFile, hc,
      Except.ok.injEq, Prod.mk.injEq] at h
    exact ⟨h.2.symm, h.1.symm⟩

theorem destructor_not_locked (fs : FS) :
    DirectoryLock.destructor fs ⟨false⟩ = fs := by
  simp [DirectoryLock.destructor]

theorem length_five (a b c d e : QString) :
    ([a, b, c, d, e] : List QString).length = 5 := rfl

theorem getD_one (a b c d e : QString) :
    ([a, b, c, d, e].getD 1 ([] : QString)) = b := rfl

theorem getD_two (a b c d e : QString) :
    ([a, b, c, d, e].getD 2 ([] : QString)) = c := rfl

theorem getD_three (a b c d e : QString) :
    ([a, b, c, d, e].getD 3 ([] : QString)) = d := rfl

/-- C1: the claim says that for a sentinel whose login and host match the
current identity and whose pid names a running process with matching start
time, `getStatus()` returns `Locked`.  The code does the opposite: whenever
login and host match and the pid differs from the current pid it returns
`StaleLock` without ever consulting `SystemInfo::isProcessRunning` (the
`@todo` at `directorylock.cpp:115` marks the missing check).  Here the
sentinel records pid 42 with start time 2017-01-01T00:00:00Z, the process
table reports pid 42 as running with exactly that start time, and the
result is still `StaleLock`. -/
theorem C1_pid_reuse_not_checked (alive : Int → Bool)
    (procStart : Int → Option QString)
    (halive : alive 42 = true)
    (hstart : procStart 42 = some "2017-01-01T00:00:00Z".data) :
    DirectoryLock.getStatus
      ⟨true,
       some "Alice A.\nalice\nhome\n42\n2017-01-01T00:00:00Z\n2017-01-01T00:00:05Z".data⟩
      idAlice alive procStart = .ok .StaleLock := rfl

theorem C1_witness :
    oracleAlive42 42 = true ∧
    oracleStart42 42 = some "2017-01-01T00:00:00Z".data ∧
    DirectoryLock.getStatus
      ⟨true,
       some "Alice A.\nalice\nhome\n42\n2017-01-01T00:00:00Z\n2017-01-01T00:00:05Z".data⟩
      idAlice oracleAlive42 oracleStart42 = .ok .StaleLock :=
  ⟨by decide, by decide,
   C1_pid_reuse_not_checked oracleAlive42 oracleStart42 (by decide) (by decide)⟩

/-- C2: the claim (and the repository's own test
`DirectoryLockTest.testLockFileContent`, which expects 6 lines and a
`SystemInfo::getProcessStartTime` line) says a successful `lock()` writes
six newline-separated fields with the process start time at line index 4
and the lock time at index 5.  The code writes only five lines — full user
name, user name, host name, pid, lock time — so the split has length 5 and
line index 4 is the lock time `now`, not a process start time. -/
theorem C2_lock_writes_five_lines (ident : Identity) (now : QString) (fs : FS)
    (st : DirectoryLock) (hdir : fs.dirIsExistingDir = true) (hnow : noNl now) :
    DirectoryLock.lock fs st ident now =
      .ok ({ fs with lockFileContent := some (DirectoryLock.lockContent ident now) },
           { st with mLockedByThisObject := true }) ∧
    (splitNl (DirectoryLock.lockContent ident now)).length = 5 ∧
    (splitNl (DirectoryLock.lockContent ident now)).getD 4 [] = now := by
  refine ⟨?_, ?_, ?_⟩
  · rw [DirectoryLock.lock, if_neg (by simp [hdir])]
  · rw [splitNl_lockContent ident now hnow]
    rfl
  · rw [splitNl_lockContent ident now hnow]
    rfl

theorem C2_witness :
    (splitNl (DirectoryLock.lockContent idAlice ("T".data))).length = 5 :=
  (C2_lock_writes_five_lines idAlice ("T".data) ⟨true, none⟩ ⟨false⟩ rfl
    (by decide)).2.1

/-- C3, counterexample: a sentinel with five lines whose pid field is the
non-numeric string "xyz" does not make `getStatus()` fail; the pid is
silently parsed to 0 by `QString::toLongLong` and the status `StaleLock`
is returned, contradicting the claim that a non-parseable pid fails with
`MalformedRecord`. -/
theorem C3_counterexample :
    DirectoryLock.getStatus
      ⟨true, some "Alice A.\nalice\nhome\nxyz\n2017-01-01T00:00:00Z".data⟩
      idAlice oracleAliveAll oracleStartNone = .ok .StaleLock := rfl

/-- C3, amended: for an existing directory with an existing sentinel,
`getStatus()` fails with the too-few-lines error exactly when the content
splits into fewer than 5 lines; with 5 or more lines a status is always
returned — a pid field that is not parseable is silently defaulted by
`toLongLong` and never causes an error. -/
theorem C3_malformed_only_too_few_lines (content : QString) (ident : Identity)
    (alive : Int → Bool) (procStart : Int → Option QString) :
    ((splitNl content).length < 5 →
      DirectoryLock.getStatus ⟨true, some content⟩ ident alive procStart =
        .error .tooFewLines) ∧
    (5 ≤ (splitNl content).length →
      ∃ s, DirectoryLock.getStatus ⟨true, some content⟩ ident alive procStart =
        .ok s) := by
  constructor
  · intro h
    rw [getStatus_some, if_pos h]
  · intro h
    rw [getStatus_some, if_neg (by omega)]
    by_cases hc : (splitNl content).getD 1 [] ≠ removeNl ident.username ∨
        (splitNl content).getD 2 [] ≠ removeNl ident.hostname ∨
        toLongLong ((splitNl content).getD 3 []) = ident.pid
    · exact ⟨.Locked, by rw [if_pos hc]⟩
    · exact ⟨.StaleLock, by rw [if_neg hc]⟩

theorem C3_witness :
    DirectoryLock.getStatus ⟨true, some "a\nb".data⟩ idAlice oracleAliveAll
      oracleStartNone = .error .tooFewLines :=
  (C3_malformed_only_too_few_lines ("a\nb".data) idAlice oracleAliveAll
    oracleStartNone).1 (by decide)

/-- C4, counterexample: on a nonexistent target directory (where no
sentinel can exist), `unlock()` does fail — but with the file-removal
error, not the directory-missing error, because `unlock()` performs no
directory-existence check (`directorylock.cpp:150-157`).  This refutes the
claim that all three operations fail with `TargetMissing`. -/
theorem C4_counterexample :
    DirectoryLock.unlock ⟨false, none⟩ ⟨false⟩ = .error .removeFileFailed ∧
    LockError.removeFileFailed ≠ LockError.dirNotExisting := by decide

/-- C4, amended: when the target directory does not exist, `getStatus()`
and `lock()` fail with the directory-missing error, while `unlock()` —
which has no directory check — fails with the file-removal error. -/
theorem C4_missing_dir_errors (fs : FS) (ident : Identity) (st : DirectoryLock)
    (now : QString) (alive : Int → Bool) (procStart : Int → Option QString)
    (hdir : fs.dirIsExistingDir = false) (hfile : fs.lockFileContent = none) :
    DirectoryLock.getStatus fs ident alive procStart = .error .dirNotExisting ∧
    DirectoryLock.lock fs st ident now = .error .dirNotExisting ∧
    DirectoryLock.unlock fs st = .error .removeFileFailed := by
  refine ⟨?_, ?_, ?_⟩
  · rw [DirectoryLock.getStatus, if_pos hdir]
  · rw [DirectoryLock.lock, if_pos hdir]
  · simp only [DirectoryLock.unlock, FileUtils.removeFile, hfile]

theorem C4_witness :
    DirectoryLock.getStatus ⟨false, none⟩ idAlice oracleAliveAll oracleStartNone =
      .error .dirNotExisting :=
  (C4_missing_dir_errors ⟨false, none⟩ idAlice ⟨false⟩ [] oracleAliveAll
    oracleStartNone rfl rfl).1

/-- C5, counterexample: `unlock()` on an existing directory whose sentinel
file is absent fails (with the file-removal error), contradicting the
claim that removing an absent sentinel is not an error; since the throw
happens before `mLockedByThisObject = false` is reached, the ownership
flag is also not cleared. -/
theorem C5_counterexample :
    DirectoryLock.unlock ⟨true, none⟩ ⟨true⟩ = .error .removeFileFailed := by decide

/-- C5, amended: `unlock()` fails with the file-removal error whenever the
sentinel is absent, and clears the ownership flag exactly when removal
succeeds (the flag assignment sits after the throwing removal). -/
theorem C5_release_not_idempotent (fs : FS) (st : DirectoryLock) :
    (fs.lockFileContent = none →
      DirectoryLock.unlock fs st = .error .removeFileFailed) ∧
    (∀ c, fs.lockFileContent = some c →
      DirectoryLock.unlock fs st =
        .ok ({ fs with lockFileContent := none }, ⟨false⟩)) := by
  constructor
  · intro h
    simp only [DirectoryLock.unlock, FileUtils.removeFile, h]
  · intro c h
    simp only [DirectoryLock.unlock, FileUtils.removeFile, h]

theorem C5_witness :
    DirectoryLock.unlock ⟨true, some ['x']⟩ ⟨true⟩ = .ok (⟨true, none⟩, ⟨false⟩) :=
  (C5_release_not_idempotent ⟨true, some ['x']⟩ ⟨true⟩).2 ['x'] rfl

/-- C6: after an acquire followed by a successful explicit release, the
handle's ownership flag is cleared, so destroying the handle leaves the
filesystem unchanged — in particular a sentinel recreated at the same path
by an unrelated writer (`w`) survives the destructor. -/
theorem C6_no_double_release (fs0 fs1 fs2 : FS) (st0 st1 st2 : DirectoryLock)
    (ident : Identity) (now w : QString)
    (h1 : DirectoryLock.lock fs0 st0 ident now = .ok (fs1, st1))
    (h2 : DirectoryLock.unlock fs1 st1 = .ok (fs2, st2)) :
    DirectoryLock.destructor { fs2 with lockFileContent := some w } st2 =
      { fs2 with lockFileContent := some w } := by
  obtain ⟨hst2, -⟩ := unlock_eq_ok fs1 fs2 st1 st2 h2
  subst hst2
  exact destructor_not_locked _

theorem C6_witness :
    DirectoryLock.destructor ⟨true, some ['x']⟩ ⟨false⟩ = ⟨true, some ['x']⟩ :=
  C6_no_double_release ⟨true, none⟩ ⟨true, some "Alice A.\nalice\nhome\n7\nT".data⟩
    ⟨true, none⟩ ⟨false⟩ ⟨true⟩ ⟨false⟩ idAlice ("T".data) ['x']
    (by decide) (by decide)

/-- C7: a successful `lock()` immediately followed by `getStatus()` from
the same process (same identity, same pid) returns `Locked`: the freshly
written sentinel has 5 lines, its login and host lines equal the current
ones, and its pid line round-trips through `QString::number` and
`QString::toLongLong` to the current pid, so the `lockPid == thisPid`
branch yields `Locked`.  `hnow` records that the ISO-8601 timestamp
written as the fifth line contains no newline. -/
theorem C7_lock_then_status_locked (fs0 fs1 : FS) (st0 st1 : DirectoryLock)
    (ident : Identity) (now : QString) (hnow : noNl now)
    (alive : Int → Bool) (procStart : Int → Option QString)
    (h1 : DirectoryLock.lock fs0 st0 ident now = .ok (fs1, st1)) :
    DirectoryLock.getStatus fs1 ident alive procStart = .ok .Locked := by
  obtain ⟨hd, hfs1, -⟩ := lock_eq_ok fs0 st0 ident now fs1 st1 h1
  subst hfs1
  rw [hd, getStatus_some, splitNl_lockContent ident now hnow,
    length_five, getD_one, getD_two, getD_three]
  rw [if_neg (by omega)]
  rw [if_pos (Or.inr (Or.inr (toLongLong_qstringNumber ident.pid)))]

theorem C7_witness :
    DirectoryLock.getStatus ⟨true, some "Alice A.\nalice\nhome\n7\nT".data⟩ idAlice
      oracleAliveAll oracleStartNone = .ok .Locked :=
  C7_lock_then_status_locked ⟨true, none⟩
    ⟨true, some "Alice A.\nalice\nhome\n7\nT".data⟩ ⟨false⟩ ⟨true⟩ idAlice
    ("T".data) (by decide) oracleAliveAll oracleStartNone (by decide)

/-- C8: for a parseable sentinel (at least 5 lines) whose login line or
host line differs from the current identity, `getStatus()` returns
`Locked` — for every process table `alive`/`procStart`, i.e. without
consulting process liveness at all. -/
theorem C8_foreign_identity_locked (content : QString) (ident : Identity)
    (alive : Int → Bool) (procStart : Int → Option QString)
    (hlen : 5 ≤ (splitNl content).length)
    (hmism : (splitNl content).getD 1 [] ≠ removeNl ident.username ∨
             (splitNl content).getD 2 [] ≠ removeNl ident.hostname) :
    DirectoryLock.getStatus ⟨true, some content⟩ ident alive procStart =
      .ok .Locked := by
  rw [getStatus_some, if_neg (by omega)]
  rcases hmism with h | h
  · rw [if_pos (Or.inl h)]
  · rw [if_pos (Or.inr (Or.inl h))]

theorem C8_witness :
    DirectoryLock.getStatus ⟨true, some "x\nbob\nhome\n7\nT".data⟩ idAlice
      oracleAliveAll oracleStartNone = .ok .Locked :=
  C8_foreign_identity_locked ("x\nbob\nhome\n7\nT".data) idAlice oracleAliveAll
    oracleStartNone (by decide) (Or.inl (by decide))

/-- C9: `SystemInfo::isProcessRunning` returns `false` exactly when the OS
reports no such process (`ESRCH` on Unix; `ERROR_INVALID_PARAMETER` or a
non-`STILL_ACTIVE` exit code on Windows), `true` when the process exists,
and surfaces an error in every other case — never coercing an
indeterminate query to either boolean. -/
theorem C9_liveness_contract :
    (SystemInfo.isProcessRunningUnix .success = .ok true) ∧
    (SystemInfo.isProcessRunningUnix .noSuchProcess = .ok false) ∧
    (∀ e : Int, SystemInfo.isProcessRunningUnix (.failure e) =
      .error (.livenessQueryFailed e)) ∧
    (∀ r : KillResult, SystemInfo.isProcessRunningUnix r = .ok false ↔
      r = .noSuchProcess) ∧
    (SystemInfo.isProcessRunningWin (.handleOk STILL_ACTIVE) = .ok true) ∧
    (∀ c : Int, c ≠ STILL_ACTIVE →
      SystemInfo.isProcessRunningWin (.handleOk c) = .ok false) ∧
    (∀ e : Int, SystemInfo.isProcessRunningWin (.handleFail e) =
      .error (.livenessQueryFailed e)) ∧
    (SystemInfo.isProcessRunningWin (.noHandle ERROR_INVALID_PARAMETER) =
      .ok false) ∧
    (∀ e : Int, e ≠ ERROR_INVALID_PARAMETER →
      SystemInfo.isProcessRunningWin (.noHandle e) =
        .error (.livenessQueryFailed e)) := by
  refine ⟨rfl, rfl, fun e => rfl, ?_, ?_, ?_, fun e => rfl, ?_, ?_⟩
  · intro r
    cases r <;> simp [SystemInfo.isProcessRunningUnix]
  · simp [SystemInfo.isProcessRunningWin]
  · intro c hc
    simp [SystemInfo.isProcessRunningWin, hc]
  · simp [SystemInfo.isProcessRunningWin]
  · intro e he
    simp [SystemInfo.isProcessRunningWin, he]

theorem C9_witness :
    SystemInfo.isProcessRunningUnix (.failure 13) =
      .error (.livenessQueryFailed 13) ∧
    SystemInfo.isProcessRunningWin (.handleOk 0) = .ok false ∧
    SystemInfo.isProcessRunningWin (.noHandle 5) =
      .error (.livenessQueryFailed 5) :=
  ⟨C9_liveness_contract.2.2.1 13,
   C9_liveness_contract.2.2.2.2.2.1 0 (by decide),
   C9_liveness_contract.2.2.2.2.2.2.2.2 5 (by decide)⟩

/-- C10: for the same current identity, `getStatus()` on two parseable
sentinels (at least 5 lines each) that agree on lines 1, 2 and 3 gives the
same result — the display-name line, both timestamp lines, any extra
trailing lines and the process table never influence the status. -/
theorem C10_status_ignores_other_lines (c1 c2 : QString) (ident : Identity)
    (alive1 alive2 : Int → Bool) (ps1 ps2 : Int → Option QString)
    (hl1 : 5 ≤ (splitNl c1).length) (hl2 : 5 ≤ (splitNl c2).length)
    (hu : (splitNl c1).getD 1 [] = (splitNl c2).getD 1 [])
    (hh : (splitNl c1).getD 2 [] = (splitNl c2).getD 2 [])
    (hp : (splitNl c1).getD 3 [] = (splitNl c2).getD 3 []) :
    DirectoryLock.getStatus ⟨true, some c1⟩ ident alive1 ps1 =
      DirectoryLock.getStatus ⟨true, some c2⟩ ident alive2 ps2 := by
  rw [getStatus_some, getStatus_some,
    if_neg (show ¬(splitNl c1).length < 5 by omega),
    if_neg (show ¬(splitNl c2).length < 5 by omega),
    hu, hh, hp]

theorem C10_witness :
    DirectoryLock.getStatus ⟨true, some "A\nalice\nhome\n9\nT1".data⟩ idAlice
      oracleAliveAll oracleStartNone =
    DirectoryLock.getStatus ⟨true, some "B\nalice\nhome\n9\nT2\nT3".data⟩ idAlice
      oracleAlive42 oracleStart42 :=
  C10_status_ignores_other_lines ("A\nalice\nhome\n9\nT1".data)
    ("B\nalice\nhome\n9\nT2\nT3".data) idAlice oracleAliveAll oracleAlive42
    oracleStartNone oracleStart42 (by decide) (by decide) (by decide) (by decide)
    (by decide)

end librepcb
